import Mathlib

/-!
Shallow embedding of the GoReddit backend (src/main.go).

The model translates the SQLite-backed mutation layer of the program:
each table of `InitDatabase` becomes a list of rows (only the columns the
mutations read or write; `created_at` timestamps are defaulted by the store
and never consulted by any mutation, so they are omitted), each
`DatabaseManager` method becomes a function from the database state to a
result together with the successor state, and each SQL constraint that the
running program actually enforces is an explicit check.

Note on foreign keys: the program opens the database with
`sql.Open("sqlite", dbPath)` and never issues `PRAGMA foreign_keys = ON`
(the modernc.org/sqlite driver keeps the SQLite default, which leaves
foreign-key enforcement disabled).  The declared FOREIGN KEY clauses are
therefore not enforced at run time and the model performs no foreign-key
checks.  UNIQUE, PRIMARY KEY and CHECK constraints are always enforced by
SQLite and are modelled.

AUTOINCREMENT columns are modelled as monotone counters starting at 1;
a rolled-back transaction also rolls back its counter update, matching
the sqlite_sequence behaviour inside a transaction.
-/

namespace GoReddit

/-- Row of the `users` table: id, username (UNIQUE), password, karma (DEFAULT 0). -/
structure UserRow where
  id : Nat
  username : String
  password : String
  karma : Int
  deriving Repr, DecidableEq

/-- Row of the `subreddits` table: id, name (UNIQUE), description. -/
structure SubredditRow where
  id : Nat
  name : String
  description : String
  deriving Repr, DecidableEq

/-- Row of the `subreddit_members` table; the PRIMARY KEY is the whole
modelled row (subreddit_id, user_id). -/
structure MemberRow where
  subredditId : Nat
  userId : Nat
  deriving Repr, DecidableEq

/-- Row of the `posts` table. -/
structure PostRow where
  id : Nat
  title : String
  content : String
  authorId : Nat
  subredditId : Nat
  deriving Repr, DecidableEq

/-- Row of the `comments` table; `CreateComment` always supplies a post id
and an optional parent comment id. -/
structure CommentRow where
  id : Nat
  content : String
  authorId : Nat
  postId : Nat
  parentCommentId : Option Nat
  deriving Repr, DecidableEq

/-- Row of the `votes` table; the PRIMARY KEY is the whole modelled row
(user_id, target_id, target_type, vote_value). -/
structure VoteRow where
  userId : Nat
  targetId : Nat
  targetType : String
  voteValue : Int
  deriving Repr, DecidableEq

/-- Row of the `direct_messages` table. -/
structure MessageRow where
  id : Nat
  fromUserId : Nat
  toUserId : Nat
  content : String
  deriving Repr, DecidableEq

/-- Row of the `user_subscriptions` table; the PRIMARY KEY is the whole
modelled row (subscriber_id, subscribed_user_id). -/
structure SubscriptionRow where
  subscriberId : Nat
  subscribedUserId : Nat
  deriving Repr, DecidableEq

/-- The whole mutable store: one list per table plus the AUTOINCREMENT
counters of the five tables that have an AUTOINCREMENT id. -/
structure DB where
  users : List UserRow
  subreddits : List SubredditRow
  members : List MemberRow
  posts : List PostRow
  comments : List CommentRow
  votes : List VoteRow
  messages : List MessageRow
  subscriptions : List SubscriptionRow
  nextUserId : Nat
  nextSubredditId : Nat
  nextPostId : Nat
  nextCommentId : Nat
  nextMessageId : Nat
  deriving Repr, DecidableEq

/-- Empty store produced by `InitDatabase` on a fresh file: all tables
empty, every AUTOINCREMENT counter about to hand out 1. -/
def initDB : DB :=
  { users := [], subreddits := [], members := [], posts := [], comments := []
    votes := [], messages := [], subscriptions := []
    nextUserId := 1, nextSubredditId := 1, nextPostId := 1
    nextCommentId := 1, nextMessageId := 1 }

/-- `DatabaseManager.RegisterUser`: single INSERT into `users`; fails on the
UNIQUE constraint of `username`, otherwise returns the fresh id. -/
def registerUser (db : DB) (username password : String) : Except String Nat × DB :=
  if db.users.any (fun u => u.username == username) then
    (.error ("failed to register user"), db)
  else
    (.ok db.nextUserId,
     { db with
        users := db.users ++ [⟨db.nextUserId, username, password, 0⟩]
        nextUserId := db.nextUserId + 1 })

/-- `DatabaseManager.CreateSubreddit`: one transaction inserting the
subreddit row (UNIQUE name) and then the founding membership row
(composite PRIMARY KEY); any failure rolls the whole transaction back. -/
def createSubreddit (db : DB) (name description : String) (creatorId : Nat) :
    Except String Nat × DB :=
  if db.subreddits.any (fun s => s.name == name) then
    (.error ("failed to create subreddit"), db)
  else if (⟨db.nextSubredditId, creatorId⟩ : MemberRow) ∈ db.members then
    (.error ("failed to add creator to subreddit"), db)
  else
    (.ok db.nextSubredditId,
     { db with
        subreddits := db.subreddits ++ [⟨db.nextSubredditId, name, description⟩]
        members := db.members ++ [⟨db.nextSubredditId, creatorId⟩]
        nextSubredditId := db.nextSubredditId + 1 })

/-- `DatabaseManager.JoinSubreddit`: INSERT OR IGNORE into
`subreddit_members`; a duplicate pair is silently ignored. -/
def joinSubreddit (db : DB) (userId subredditId : Nat) : Except String Unit × DB :=
  if (⟨subredditId, userId⟩ : MemberRow) ∈ db.members then
    (.ok (), db)
  else
    (.ok (), { db with members := db.members ++ [⟨subredditId, userId⟩] })

/-- `DatabaseManager.LeaveSubreddit`: DELETE of the matching membership
rows; deleting nothing is still a success. -/
def leaveSubreddit (db : DB) (userId subredditId : Nat) : Except String Unit × DB :=
  (.ok (),
   { db with
      members := db.members.filter
        (fun m => !(m.subredditId == subredditId && m.userId == userId)) })

/-- `DatabaseManager.CreatePost`: single INSERT into `posts`; no enforced
constraint can fail (foreign keys are not enabled). -/
def createPost (db : DB) (title content : String) (authorId subredditId : Nat) :
    Except String Nat × DB :=
  (.ok db.nextPostId,
   { db with
      posts := db.posts ++ [⟨db.nextPostId, title, content, authorId, subredditId⟩]
      nextPostId := db.nextPostId + 1 })

/-- `DatabaseManager.CreateComment`: single INSERT into `comments`; no
enforced constraint can fail (foreign keys are not enabled), so an absent
post or parent comment id is accepted. -/
def createComment (db : DB) (content : String) (authorId postId : Nat)
    (parentCommentId : Option Nat) : Except String Nat × DB :=
  (.ok db.nextCommentId,
   { db with
      comments := db.comments ++
        [⟨db.nextCommentId, content, authorId, postId, parentCommentId⟩]
      nextCommentId := db.nextCommentId + 1 })

/-- `DatabaseManager.SendDirectMessage`: single INSERT into
`direct_messages`; cannot fail. -/
def sendDirectMessage (db : DB) (fromUserId toUserId : Nat) (content : String) :
    Except String Nat × DB :=
  (.ok db.nextMessageId,
   { db with
      messages := db.messages ++ [⟨db.nextMessageId, fromUserId, toUserId, content⟩]
      nextMessageId := db.nextMessageId + 1 })

/-- `DatabaseManager.SubscribeToUser`: INSERT OR IGNORE into
`user_subscriptions`. -/
def subscribeToUser (db : DB) (subscriberId subscribedUserId : Nat) :
    Except String Unit × DB :=
  if (⟨subscriberId, subscribedUserId⟩ : SubscriptionRow) ∈ db.subscriptions then
    (.ok (), db)
  else
    (.ok (),
     { db with subscriptions := db.subscriptions ++ [⟨subscriberId, subscribedUserId⟩] })

/-- `DatabaseManager.UnsubscribeFromUser`: DELETE of the matching
subscription rows. -/
def unsubscribeFromUser (db : DB) (subscriberId subscribedUserId : Nat) :
    Except String Unit × DB :=
  (.ok (),
   { db with
      subscriptions := db.subscriptions.filter
        (fun s => !(s.subscriberId == subscriberId && s.subscribedUserId == subscribedUserId)) })

/-- The vote row the `Vote` INSERT writes. -/
def voteRowOf (userId targetId : Nat) (targetType : String) (value : Int) : VoteRow :=
  ⟨userId, targetId, targetType, value⟩

/-- The scalar subquery of the karma UPDATE in `Vote`:
`SELECT author_id FROM posts WHERE id = ?` when the target type is
"post", otherwise the same over `comments`. -/
def targetAuthor (db : DB) (targetId : Nat) (targetType : String) : Option Nat :=
  if targetType = "post" then
    (db.posts.find? (fun p => p.id == targetId)).map (fun p => p.authorId)
  else
    (db.comments.find? (fun c => c.id == targetId)).map (fun c => c.authorId)

/-- The karma UPDATE of `Vote`: add `value` to the karma of every user row
whose id equals the selected author id (no row when the subquery is NULL). -/
def applyKarma (users : List UserRow) (authorId : Option Nat) (value : Int) :
    List UserRow :=
  users.map (fun u =>
    if authorId == some u.id then { u with karma := u.karma + value } else u)

/-- `DatabaseManager.Vote`: one transaction inserting the vote row — the
CHECK constraints on `target_type` and `vote_value` and the composite
PRIMARY KEY can reject it, rolling the transaction back — and then running
the karma UPDATE keyed on the author subquery. -/
def vote (db : DB) (userId targetId : Nat) (targetType : String) (value : Int) :
    Except String Unit × DB :=
  if (targetType = "post" ∨ targetType = "comment") ∧
     (value = 1 ∨ value = -1) ∧
     voteRowOf userId targetId targetType value ∉ db.votes then
    (.ok (),
     { db with
        votes := db.votes ++ [voteRowOf userId targetId targetType value]
        users := applyKarma db.users (targetAuthor db targetId targetType) value })
  else
    (.error ("failed to record vote"), db)

/-- `DatabaseManager.ResetDatabase`: one transaction deleting every row of
the tables in its hard-coded list — direct_messages, votes, comments,
posts, subreddit_members, subreddits, users — and clearing their
sqlite_sequence entries, which restarts those AUTOINCREMENT counters at 1.
The `user_subscriptions` table is not in the list and keeps its rows. -/
def resetDatabase (db : DB) : Except String Unit × DB :=
  (.ok (),
   { db with
      users := [], subreddits := [], members := [], posts := [], comments := []
      votes := [], messages := []
      nextUserId := 1, nextSubredditId := 1, nextPostId := 1
      nextCommentId := 1, nextMessageId := 1 })

/-- One mutation of the store, one constructor per `DatabaseManager`
write method routed through the system. -/
inductive Op where
  | register (username password : String)
  | createSub (name description : String) (creatorId : Nat)
  | join (userId subredditId : Nat)
  | leave (userId subredditId : Nat)
  | post (title content : String) (authorId subredditId : Nat)
  | comment (content : String) (authorId postId : Nat) (parentCommentId : Option Nat)
  | castVote (userId targetId : Nat) (targetType : String) (value : Int)
  | message (fromUserId toUserId : Nat) (content : String)
  | subscribe (subscriberId subscribedUserId : Nat)
  | unsubscribe (subscriberId subscribedUserId : Nat)
  | reset
  deriving Repr, DecidableEq

/-- State reached after one mutation: the successor store of the
corresponding method (a failed operation leaves the store unchanged,
which the methods already encode). -/
def step (db : DB) : Op → DB
  | .register u p => (registerUser db u p).2
  | .createSub n d c => (createSubreddit db n d c).2
  | .join u s => (joinSubreddit db u s).2
  | .leave u s => (leaveSubreddit db u s).2
  | .post t c a s => (createPost db t c a s).2
  | .comment c a p pc => (createComment db c a p pc).2
  | .castVote u t tt v => (vote db u t tt v).2
  | .message f t c => (sendDirectMessage db f t c).2
  | .subscribe a b => (subscribeToUser db a b).2
  | .unsubscribe a b => (unsubscribeFromUser db a b).2
  | .reset => (resetDatabase db).2

/-- State after a whole sequence of mutations. -/
def run (db : DB) (ops : List Op) : DB :=
  ops.foldl step db

/-- The user row with the given id, as the karma UPDATE and the user
queries locate it. -/
def findUser (users : List UserRow) (uid : Nat) : Option UserRow :=
  users.find? (fun u => u.id == uid)

/-- Karma column of the user with the given id, `none` when no such row. -/
def karmaOf (db : DB) (uid : Nat) : Option Int :=
  (findUser db.users uid).map (fun u => u.karma)

/-- Whether a user row with the given id exists. -/
def userExists (db : DB) (uid : Nat) : Bool :=
  (findUser db.users uid).isSome

/-- `ActorPool`: the worker PIDs are interchangeable for dispatch, so the
pool state is its size and the shared round-robin counter (`roundRobin`),
mutated only under the mutex in `ProcessRequest`. -/
structure ActorPool where
  poolSize : Nat
  roundRobin : Nat
  deriving Repr, DecidableEq

/-- `NewActorPool`: fresh pool, counter at 0. -/
def newActorPool (poolSize : Nat) : ActorPool :=
  { poolSize := poolSize, roundRobin := 0 }

/-- The worker-selection step of `ActorPool.ProcessRequest`: read the
counter as the selected index, then increment it modulo the pool size.
The selection reads nothing but the counter — in particular neither the
request kind nor any worker state. -/
def processRequestSelect (p : ActorPool) : Nat × ActorPool :=
  (p.roundRobin, { p with roundRobin := (p.roundRobin + 1) % p.poolSize })

/-- Worker indices assigned to `k` consecutive `ProcessRequest` calls. -/
def poolAssignments : ActorPool → Nat → List Nat
  | _, 0 => []
  | p, Nat.succ k =>
      (processRequestSelect p).1 :: poolAssignments (processRequestSelect p).2 k

/-- Payload variants carried by a `Request`; the Go code stores them in an
`interface` field and type-asserts in each `process*` handler. -/
inductive Payload where
  | createPostReq (title content : String) (subredditId : Nat)
  | createCommentReq (content : String) (postId : Nat) (parentCommentId : Option Nat)
  | sendMessageReq (toUserId : Nat) (content : String)
  | joinSubredditReq (subredditId : Nat)
  | leaveSubredditReq (subredditId : Nat)
  | createSubredditReq (name description : String)
  | voteReq (targetId : Nat) (targetType : String) (value : Int)
  deriving Repr, DecidableEq

/-- The request envelope handed to a worker: operation kind string,
payload, and the authenticated user id from the context (the completion
channel is modelled by the send list `receive` returns). -/
structure Request where
  reqType : String
  payload : Payload
  userId : Nat
  deriving Repr, DecidableEq

/-- `processCreatePost`: type-assert the payload, run `CreatePost`,
return the error (if any) to be sent on the completion channel. -/
def processCreatePost (db : DB) (req : Request) : Option String × DB :=
  match req.payload with
  | .createPostReq title content subredditId =>
      match createPost db title content req.userId subredditId with
      | (.ok _, db') => (none, db')
      | (.error e, db') => (some e, db')
  | _ => (some ("invalid payload"), db)

/-- `processCreateComment`. -/
def processCreateComment (db : DB) (req : Request) : Option String × DB :=
  match req.payload with
  | .createCommentReq content postId parentCommentId =>
      match createComment db content req.userId postId parentCommentId with
      | (.ok _, db') => (none, db')
      | (.error e, db') => (some e, db')
  | _ => (some ("invalid payload for create comment"), db)

/-- `processSendMessage`. -/
def processSendMessage (db : DB) (req : Request) : Option String × DB :=
  match req.payload with
  | .sendMessageReq toUserId content =>
      match sendDirectMessage db req.userId toUserId content with
      | (.ok _, db') => (none, db')
      | (.error e, db') => (some e, db')
  | _ => (some ("invalid payload for send message"), db)

/-- `processJoinSubreddit`. -/
def processJoinSubreddit (db : DB) (req : Request) : Option String × DB :=
  match req.payload with
  | .joinSubredditReq subredditId =>
      match joinSubreddit db req.userId subredditId with
      | (.ok _, db') => (none, db')
      | (.error e, db') => (some e, db')
  | _ => (some ("invalid payload for join subreddit"), db)

/-- `processLeaveSubreddit`. -/
def processLeaveSubreddit (db : DB) (req : Request) : Option String × DB :=
  match req.payload with
  | .leaveSubredditReq subredditId =>
      match leaveSubreddit db req.userId subredditId with
      | (.ok _, db') => (none, db')
      | (.error e, db') => (some e, db')
  | _ => (some ("invalid payload for leave subreddit"), db)

/-- `processCreateSubreddit`. -/
def processCreateSubreddit (db : DB) (req : Request) : Option String × DB :=
  match req.payload with
  | .createSubredditReq name description =>
      match createSubreddit db name description req.userId with
      | (.ok _, db') => (none, db')
      | (.error e, db') => (some e, db')
  | _ => (some ("invalid payload for create subreddit"), db)

/-- `processVote`. -/
def processVote (db : DB) (req : Request) : Option String × DB :=
  match req.payload with
  | .voteReq targetId targetType value =>
      match vote db req.userId targetId targetType value with
      | (.ok _, db') => (none, db')
      | (.error e, db') => (some e, db')
  | _ => (some ("invalid payload for vote"), db)

/-- The kind switch inside `RequestProcessingActor.Receive`, including the
default branch for an unrecognized kind. -/
def dispatchRequest (db : DB) (req : Request) : Option String × DB :=
  match req.reqType with
  | "create_post" => processCreatePost db req
  | "create_comment" => processCreateComment db req
  | "send_message" => processSendMessage db req
  | "join_subreddit" => processJoinSubreddit db req
  | "create_subreddit" => processCreateSubreddit db req
  | "vote" => processVote db req
  | "leave_subreddit" => processLeaveSubreddit db req
  | _ => (some ("unhandled request type: " ++ req.reqType), db)

/-- `RequestProcessingActor.Receive` on a request envelope: run the kind
switch, then send the error on the completion channel if there is one,
else send the nil success marker.  The second component lists every value
sent on the completion channel of the envelope. -/
def receive (db : DB) (req : Request) : DB × List (Option String) :=
  let r := dispatchRequest db req
  if r.1.isSome then (r.2, [r.1]) else (r.2, [none])

/-- Karma of a user id read as a plain integer, 0 when no such row —
the quantity the karma-ledger invariant tracks. -/
def karmaD (db : DB) (uid : Nat) : Int :=
  (karmaOf db uid).getD 0

/-- Spec-side accounting (following the words of the spec, to be compared
with the code model): the karma delta one mutation applies to the given
user — the value of a successful cast-vote whose target is, at the moment
of the cast, an existing post or comment authored by an existing user with
that id; zero for every other mutation and for votes whose target or
author is absent. -/
def appliedDelta (db : DB) (op : Op) (uid : Nat) : Int :=
  match op with
  | .castVote voterId targetId targetType value =>
      match (vote db voterId targetId targetType value).1 with
      | .ok _ =>
          if targetAuthor db targetId targetType = some uid ∧ userExists db uid = true
          then value else 0
      | .error _ => 0
  | _ => 0

/-- Spec-side accounting: running total, per user id, of the vote values
ever applied to the content authored by that user along a mutation
sequence, discarded by a reset ("modulo reset"). -/
def appliedKarma (db : DB) (acc : Nat → Int) : List Op → Nat → Int
  | [], uid => acc uid
  | op :: ops, uid =>
      appliedKarma (step db op)
        (if op = .reset then fun _ => 0 else fun u => acc u + appliedDelta db op u)
        ops uid

/-- The two mutation kinds whose atomic units write the karma column. -/
def touchesKarma : Op → Bool
  | .castVote _ _ _ _ => true
  | .reset => true
  | _ => false

/-! Helper lemmas about user lookup. -/

theorem findUser_append (l₁ l₂ : List UserRow) (uid : Nat) :
    findUser (l₁ ++ l₂) uid = (findUser l₁ uid).or (findUser l₂ uid) := by
  simp [findUser, List.find?_append]

theorem id_of_karmaUpdate (u : UserRow) (a? : Option Nat) (v : Int) :
    (if a? == some u.id then { u with karma := u.karma + v } else u).id = u.id := by
  split <;> rfl

theorem findUser_applyKarma (users : List UserRow) (a? : Option Nat) (v : Int) (uid : Nat) :
    findUser (applyKarma users a? v) uid =
      (findUser users uid).map
        (fun u => if a? == some u.id then { u with karma := u.karma + v } else u) := by
  unfold findUser applyKarma
  rw [List.find?_map]
  have hp : ((fun u => u.id == uid) ∘ fun u : UserRow =>
      if a? == some u.id then { u with karma := u.karma + v } else u) =
      (fun u : UserRow => u.id == uid) := by
    funext u
    show ((if a? == some u.id then { u with karma := u.karma + v } else u).id == uid)
        = (u.id == uid)
    rw [id_of_karmaUpdate]
  rw [hp]

theorem findUser_id {users : List UserRow} {uid : Nat} {u : UserRow}
    (h : findUser users uid = some u) : u.id = uid := by
  have := List.find?_some h
  simpa using this

/-- Claim C8: for every request envelope delivered to a worker, the worker
sends exactly one value on the completion channel of the envelope — one
send in every operation-kind branch, including the unrecognized-kind
branch and every store-error branch. -/
theorem receive_exactly_one_completion (db : DB) (req : Request) :
    ((receive db req).2).length = 1 := by
  unfold receive
  by_cases h : (dispatchRequest db req).1.isSome <;> simp [h]

/-- Cyclic selection from an arbitrary counter value below the pool size. -/
theorem poolAssignments_eq (N : Nat) (hN : 0 < N) :
    ∀ (K c : Nat), c < N →
      poolAssignments ⟨N, c⟩ K = (List.range K).map (fun k => (c + k) % N) := by
  intro K
  induction K with
  | zero => intro c hc; simp [poolAssignments]
  | succ k ih =>
      intro c hc
      rw [poolAssignments, List.range_succ_eq_map, List.map_cons, List.map_map]
      refine congrArg₂ _ ?_ ?_
      · simp [processRequestSelect, Nat.mod_eq_of_lt hc]
      · rw [show (processRequestSelect ⟨N, c⟩).2 = ⟨N, (c + 1) % N⟩ from rfl]
        rw [ih ((c + 1) % N) (Nat.mod_lt _ hN)]
        congr 1
        funext j
        simp only [Function.comp, Nat.mod_add_mod]
        congr 1
        omega

/-- Claim C4: for every pool of size N ≥ 1 starting from a fresh pool
state, the K consecutive requests are assigned to workers in the cyclic
order 0, 1, ..., N-1, 0, 1, ... — the k-th request goes to worker k mod N.
The selection step reads only the shared counter, so the assignment is
independent of the request kinds and of worker execution. -/
theorem round_robin_assignment (N K : Nat) (hN : 1 ≤ N) :
    poolAssignments (newActorPool N) K = (List.range K).map (fun k => k % N) := by
  have h := poolAssignments_eq N hN K 0 hN
  simpa [newActorPool] using h

/-- Witness for C4 at N = 3, K = 7. -/
theorem round_robin_assignment_witness :
    1 ≤ 3 ∧ poolAssignments (newActorPool 3) 7 = (List.range 7).map (fun k => k % 3) :=
  ⟨by decide, round_robin_assignment 3 7 (by decide)⟩

/-- Claim C2 (failing input): a store holding one subscription row is
reset; the reset reports success and empties the users table, yet the
subscription row survives, because `ResetDatabase` never deletes from
`user_subscriptions`. -/
theorem reset_misses_subscriptions :
    (resetDatabase (run initDB
        [.register ("alice") ("pw"), .register ("bob") ("pw"), .subscribe 1 2])).1 = .ok () ∧
    (resetDatabase (run initDB
        [.register ("alice") ("pw"), .register ("bob") ("pw"), .subscribe 1 2])).2.users = [] ∧
    (resetDatabase (run initDB
        [.register ("alice") ("pw"), .register ("bob") ("pw"), .subscribe 1 2])).2.subscriptions =
      [⟨1, 2⟩] :=
  ⟨rfl, rfl, rfl⟩

/-- Claim C9 (failing input): in a store with one user and no posts and no
comments, creating a comment under post 1 with parent comment 5 — both
nonexistent — succeeds and inserts the row, because the connection never
enables foreign-key enforcement. -/
theorem comment_missing_parent_accepted :
    (createComment (run initDB [.register ("alice") ("pw")]) ("hi") 1 1 (some 5)).1 = .ok 1 ∧
    (createComment (run initDB [.register ("alice") ("pw")]) ("hi") 1 1 (some 5)).2.comments =
      [⟨1, "hi", 1, 1, some 5⟩] :=
  ⟨rfl, rfl⟩

/-- Claim C3: every create-community request either writes both the
community row and the founding membership row for the creator (appended
together in one transaction), or fails leaving the store exactly as it
was — no state with the community but without the founder membership. -/
theorem create_community_atomic (db : DB) (name description : String) (creatorId : Nat) :
    (∀ (sid : Nat) (db' : DB),
        createSubreddit db name description creatorId = (.ok sid, db') →
        sid = db.nextSubredditId ∧
        db'.subreddits = db.subreddits ++ [⟨sid, name, description⟩] ∧
        db'.members = db.members ++ [⟨sid, creatorId⟩]) ∧
    (∀ (e : String) (db' : DB),
        createSubreddit db name description creatorId = (.error e, db') → db' = db) := by
  constructor
  · intro sid db' h
    unfold createSubreddit at h
    split at h
    · simp at h
    · split at h
      · simp at h
      · rw [Prod.mk.injEq] at h
        obtain ⟨h1, h2⟩ := h
        simp only [Except.ok.injEq] at h1
        subst h1
        subst h2
        exact ⟨rfl, rfl, rfl⟩
  · intro e db' h
    unfold createSubreddit at h
    split at h
    · rw [Prod.mk.injEq] at h
      exact h.2.symm
    · split at h
      · rw [Prod.mk.injEq] at h
        exact h.2.symm
      · simp at h

/-- Witness for C3: on the empty store, creating community "go" for user 1
writes both rows; creating "go" again fails and leaves the store as it
was. -/
theorem create_community_atomic_witness :
    ((createSubreddit initDB ("go") ("d") 1).2.subreddits =
        initDB.subreddits ++ [⟨1, "go", "d"⟩] ∧
     (createSubreddit initDB ("go") ("d") 1).2.members =
        initDB.members ++ [⟨1, 1⟩]) ∧
    (createSubreddit (createSubreddit initDB ("go") ("d") 1).2 ("go") ("x") 2).2 =
      (createSubreddit initDB ("go") ("d") 1).2 := by
  refine ⟨?_, ?_⟩
  · have h := (create_community_atomic initDB ("go") ("d") 1).1 1
      (createSubreddit initDB ("go") ("d") 1).2 rfl
    exact ⟨h.2.1, h.2.2⟩
  · exact (create_community_atomic (createSubreddit initDB ("go") ("d") 1).2
      ("go") ("x") 2).2 ("failed to create subreddit")
      (createSubreddit (createSubreddit initDB ("go") ("d") 1).2 ("go") ("x") 2).2 rfl

/-- Claim C6 (counterexample): in a store with one user and no posts at
all, user 1 casts a vote on post 7 — an unknown target.  The claim says
this errors, rolls back and inserts nothing; instead the operation
succeeds and the vote ledger row is inserted. -/
theorem vote_unknown_target_not_rejected :
    (vote (run initDB [.register ("alice") ("pw")]) 1 7 ("post") 1).1 = .ok () ∧
    (vote (run initDB [.register ("alice") ("pw")]) 1 7 ("post") 1).2.votes =
      [voteRowOf 1 7 ("post") 1] :=
  ⟨rfl, rfl⟩

/-- Claim C6 (amended): casting a CHECK-valid, non-duplicate vote on an
unknown target (no post, respectively no comment, with that id) succeeds:
the vote ledger row is appended and no user row changes, because the karma
update keyed on the author subquery matches no row. -/
theorem vote_unknown_target_silent (db : DB) (uid tid : Nat) (ttype : String) (v : Int)
    (h1 : ttype = "post" ∨ ttype = "comment") (h2 : v = 1 ∨ v = -1)
    (h3 : voteRowOf uid tid ttype v ∉ db.votes)
    (h4 : targetAuthor db tid ttype = none) :
    (vote db uid tid ttype v).1 = .ok () ∧
    (vote db uid tid ttype v).2.votes = db.votes ++ [voteRowOf uid tid ttype v] ∧
    (vote db uid tid ttype v).2.users = db.users := by
  unfold vote
  rw [if_pos ⟨h1, h2, h3⟩]
  refine ⟨rfl, rfl, ?_⟩
  show applyKarma db.users (targetAuthor db tid ttype) v = db.users
  rw [h4]
  unfold applyKarma
  have : ∀ u : UserRow,
      (if (none : Option Nat) == some u.id then { u with karma := u.karma + v } else u) = u :=
    fun u => rfl
  simp [this]

/-- Witness for C6 at a concrete store: one registered user, no posts. -/
theorem vote_unknown_target_silent_witness :
    (vote (run initDB [.register ("carol") ("pw")]) 1 9 ("post") 1).1 = .ok () ∧
    (vote (run initDB [.register ("carol") ("pw")]) 1 9 ("post") 1).2.votes =
      (run initDB [.register ("carol") ("pw")]).votes ++ [voteRowOf 1 9 ("post") 1] ∧
    (vote (run initDB [.register ("carol") ("pw")]) 1 9 ("post") 1).2.users =
      (run initDB [.register ("carol") ("pw")]).users :=
  vote_unknown_target_silent (run initDB [.register ("carol") ("pw")]) 1 9 ("post") 1
    (Or.inl rfl) (Or.inl rfl) (by decide) rfl

/-- The karma update applied to the author the subquery selected:
an existing author row gains exactly the vote value. -/
theorem karmaOf_applyKarma_self (users : List UserRow) (a : Nat) (v : Int) (k : Int)
    (h : (findUser users a).map (fun u => u.karma) = some k) :
    (findUser (applyKarma users (some a) v) a).map (fun u => u.karma) = some (k + v) := by
  rw [findUser_applyKarma]
  cases hf : findUser users a with
  | none => rw [hf] at h; simp at h
  | some u0 =>
      rw [hf] at h
      have hid : u0.id = a := findUser_id hf
      have hbeq : (some a == some u0.id) = true := by simp [hid]
      simp only [Option.map_some', hbeq, if_true, Option.some.injEq] at h ⊢
      omega

/-- Claim C5 (counterexample): user 2 has already voted +1 on post 1
(authored by user 1); casting the same +1 vote again is rejected by the
composite primary key of the vote ledger and leaves the store unchanged —
it is not appended as a further ledger row. -/
theorem revote_same_direction_rejected :
    (vote (run initDB [.register ("alice") ("pw"), .register ("bob") ("pw"),
        .createSub ("go") ("d") 1, .post ("t") ("c") 1 1, .castVote 2 1 ("post") 1])
        2 1 ("post") 1).1 = .error ("failed to record vote") ∧
    (vote (run initDB [.register ("alice") ("pw"), .register ("bob") ("pw"),
        .createSub ("go") ("d") 1, .post ("t") ("c") 1 1, .castVote 2 1 ("post") 1])
        2 1 ("post") 1).2 =
      run initDB [.register ("alice") ("pw"), .register ("bob") ("pw"),
        .createSub ("go") ("d") 1, .post ("t") ("c") 1 1, .castVote 2 1 ("post") 1] :=
  ⟨rfl, rfl⟩

/-- Claim C5 (amended): the vote ledger keeps at most one row per
(user, target, kind, value).  Re-casting a vote identical in all four
components is rejected with an error and leaves the store unchanged;
re-casting on the same target with a different (opposite) value succeeds,
appends a further ledger row, and adds its value to the karma of the
author of the target again. -/
theorem revote_ledger_semantics (db : DB) (uid tid : Nat) (ttype : String) (v : Int) :
    (voteRowOf uid tid ttype v ∈ db.votes →
      vote db uid tid ttype v = (.error ("failed to record vote"), db)) ∧
    ((ttype = "post" ∨ ttype = "comment") → (v = 1 ∨ v = -1) →
      voteRowOf uid tid ttype v ∉ db.votes →
      (vote db uid tid ttype v).1 = .ok () ∧
      (vote db uid tid ttype v).2.votes = db.votes ++ [voteRowOf uid tid ttype v] ∧
      (∀ (a : Nat) (k : Int), targetAuthor db tid ttype = some a → karmaOf db a = some k →
        karmaOf (vote db uid tid ttype v).2 a = some (k + v))) := by
  constructor
  · intro hmem
    unfold vote
    rw [if_neg]
    intro hc
    exact hc.2.2 hmem
  · intro h1 h2 h3
    unfold vote
    rw [if_pos ⟨h1, h2, h3⟩]
    refine ⟨rfl, rfl, ?_⟩
    intro a k ha hk
    show (findUser (applyKarma db.users (targetAuthor db tid ttype) v) a).map
        (fun u => u.karma) = some (k + v)
    rw [ha]
    exact karmaOf_applyKarma_self db.users a v k hk

/-- Witness for C5: after the +1 vote of user 2 on post 1, the identical
re-vote errors leaving the store unchanged, and the opposite −1 re-vote
succeeds and brings the karma of author 1 from 1 back to 0. -/
theorem revote_ledger_semantics_witness :
    (vote (run initDB [.register ("dora") ("pw"), .register ("evan") ("pw"),
        .createSub ("r1") ("d") 1, .post ("t") ("c") 1 1, .castVote 2 1 ("post") 1])
        2 1 ("post") 1 =
      (.error ("failed to record vote"),
        run initDB [.register ("dora") ("pw"), .register ("evan") ("pw"),
          .createSub ("r1") ("d") 1, .post ("t") ("c") 1 1, .castVote 2 1 ("post") 1])) ∧
    ((vote (run initDB [.register ("dora") ("pw"), .register ("evan") ("pw"),
        .createSub ("r1") ("d") 1, .post ("t") ("c") 1 1, .castVote 2 1 ("post") 1])
        2 1 ("post") (-1)).1 = .ok () ∧
     karmaOf (vote (run initDB [.register ("dora") ("pw"), .register ("evan") ("pw"),
        .createSub ("r1") ("d") 1, .post ("t") ("c") 1 1, .castVote 2 1 ("post") 1])
        2 1 ("post") (-1)).2 1 = some (1 + (-1))) := by
  refine ⟨?_, ?_, ?_⟩
  · exact (revote_ledger_semantics _ 2 1 ("post") 1).1 (by decide)
  · exact ((revote_ledger_semantics _ 2 1 ("post") (-1)).2
      (Or.inl rfl) (Or.inr rfl) (by decide)).1
  · exact ((revote_ledger_semantics _ 2 1 ("post") (-1)).2
      (Or.inl rfl) (Or.inr rfl) (by decide)).2.2 1 1 rfl rfl

/-- Appending user rows never changes the karma read for an id that is
already present (the INSERT of `RegisterUser` appends). -/
theorem karmaOf_users_append (db : DB) (l : List UserRow) (uid : Nat) (k : Int)
    (h : karmaOf db uid = some k) :
    (findUser (db.users ++ l) uid).map (fun u => u.karma) = some k := by
  rw [findUser_append]
  unfold karmaOf at h
  cases hf : findUser db.users uid with
  | none => rw [hf] at h; simp at h
  | some u => rw [hf] at h; simpa using h

/-- Claim C10: every mutation other than cast-vote and reset-all-state
(register user, create community, join or leave community, create post,
create comment, send message, subscribe, unsubscribe) leaves the karma
field of every existing user unchanged. -/
theorem karma_frame (db : DB) (op : Op) (uid : Nat) (k : Int)
    (hop : touchesKarma op = false) (h : karmaOf db uid = some k) :
    karmaOf (step db op) uid = some k := by
  cases op with
  | register u p =>
      show karmaOf (registerUser db u p).2 uid = some k
      unfold registerUser
      split
      · exact h
      · exact karmaOf_users_append db _ uid k h
  | createSub n d c =>
      show karmaOf (createSubreddit db n d c).2 uid = some k
      unfold createSubreddit
      split
      · exact h
      · split
        · exact h
        · exact h
  | join u s =>
      show karmaOf (joinSubreddit db u s).2 uid = some k
      unfold joinSubreddit
      split
      · exact h
      · exact h
  | leave u s => exact h
  | post t c a s => exact h
  | comment c a p pc => exact h
  | message f t c => exact h
  | subscribe a b =>
      show karmaOf (subscribeToUser db a b).2 uid = some k
      unfold subscribeToUser
      split
      · exact h
      · exact h
  | unsubscribe a b => exact h
  | castVote u t tt v => simp [touchesKarma] at hop
  | reset => simp [touchesKarma] at hop

/-- Witness for C10: creating a post leaves the karma of user 1 at 0. -/
theorem karma_frame_witness :
    touchesKarma (.post ("t") ("c") 1 1) = false ∧
    karmaOf (run initDB [.register ("fred") ("pw")]) 1 = some 0 ∧
    karmaOf (step (run initDB [.register ("fred") ("pw")]) (.post ("t") ("c") 1 1)) 1 =
      some 0 :=
  ⟨rfl, rfl, karma_frame (run initDB [.register ("fred") ("pw")])
    (.post ("t") ("c") 1 1) 1 0 rfl rfl⟩

/-- One mutation preserves uniqueness of the membership rows (the
composite primary key of `subreddit_members`). -/
theorem members_nodup_step (db : DB) (op : Op) (h : db.members.Nodup) :
    (step db op).members.Nodup := by
  cases op with
  | register u p =>
      show (registerUser db u p).2.members.Nodup
      unfold registerUser
      split
      · exact h
      · exact h
  | createSub n d c =>
      show (createSubreddit db n d c).2.members.Nodup
      unfold createSubreddit
      split
      · exact h
      · split
        case isTrue => exact h
        case isFalse hmem =>
          exact h.append (List.nodup_singleton _) (List.disjoint_singleton.2 hmem)
  | join u s =>
      show (joinSubreddit db u s).2.members.Nodup
      unfold joinSubreddit
      split
      case isTrue => exact h
      case isFalse hmem =>
        exact h.append (List.nodup_singleton _) (List.disjoint_singleton.2 hmem)
  | leave u s => exact h.filter _
  | post t c a s => exact h
  | comment c a p pc => exact h
  | castVote u t tt v =>
      show (vote db u t tt v).2.members.Nodup
      unfold vote
      split
      · exact h
      · exact h
  | message f t c => exact h
  | subscribe a b =>
      show (subscribeToUser db a b).2.members.Nodup
      unfold subscribeToUser
      split
      · exact h
      · exact h
  | unsubscribe a b => exact h
  | reset => exact List.nodup_nil

/-- INSERT OR IGNORE on an already present membership pair is a no-op. -/
theorem joinSubreddit_mem (db : DB) (uid sid : Nat)
    (hmem : (⟨sid, uid⟩ : MemberRow) ∈ db.members) :
    joinSubreddit db uid sid = (.ok (), db) := by
  unfold joinSubreddit
  rw [if_pos hmem]

/-- After a join the pair is a member. -/
theorem mem_joinSubreddit (db : DB) (uid sid : Nat) :
    (⟨sid, uid⟩ : MemberRow) ∈ ((joinSubreddit db uid sid).2).members := by
  unfold joinSubreddit
  split
  case isTrue hm => exact hm
  case isFalse hm => exact List.mem_append_right _ (List.mem_singleton.2 rfl)

/-- Claim C7: join and leave are idempotent and never error — joining when
already a member succeeds and changes nothing (so join twice equals join
once), leaving a community never joined succeeds and changes nothing — and
along every mutation sequence from the initial store at most one
membership row per (community, user) pair exists. -/
theorem membership_idempotent :
    (∀ (db : DB) (uid sid : Nat),
        (joinSubreddit db uid sid).1 = .ok () ∧
        ((⟨sid, uid⟩ : MemberRow) ∈ db.members → joinSubreddit db uid sid = (.ok (), db)) ∧
        joinSubreddit ((joinSubreddit db uid sid).2) uid sid =
          (.ok (), (joinSubreddit db uid sid).2)) ∧
    (∀ (db : DB) (uid sid : Nat),
        (leaveSubreddit db uid sid).1 = .ok () ∧
        ((⟨sid, uid⟩ : MemberRow) ∉ db.members → leaveSubreddit db uid sid = (.ok (), db))) ∧
    (∀ ops : List Op, (run initDB ops).members.Nodup) := by
  refine ⟨fun db uid sid => ⟨?_, ?_, ?_⟩, fun db uid sid => ⟨?_, ?_⟩, ?_⟩
  · unfold joinSubreddit
    split
    · rfl
    · rfl
  · exact joinSubreddit_mem db uid sid
  · exact joinSubreddit_mem _ uid sid (mem_joinSubreddit db uid sid)
  · rfl
  · intro hmem
    unfold leaveSubreddit
    have hfilter : db.members.filter
        (fun m => !(m.subredditId == sid && m.userId == uid)) = db.members := by
      rw [List.filter_eq_self]
      intro m hm
      cases hms : (m.subredditId == sid && m.userId == uid) with
      | false => rfl
      | true =>
          exfalso
          simp only [Bool.and_eq_true, beq_iff_eq] at hms
          have hm2 : m = (⟨sid, uid⟩ : MemberRow) := by
            cases m
            simp_all
          exact hmem (hm2 ▸ hm)
    rw [hfilter]
  · intro ops
    have hgen : ∀ (ops : List Op) (db : DB), db.members.Nodup → (run db ops).members.Nodup := by
      intro ops
      induction ops with
      | nil => intro db h; exact h
      | cons op ops ih => intro db h; exact ih (step db op) (members_nodup_step db op h)
    exact hgen ops initDB List.nodup_nil

/-- Witness for C7: re-joining after a join is a no-op and succeeds;
leaving a never-joined community is a no-op and succeeds. -/
theorem membership_idempotent_witness :
    joinSubreddit ((joinSubreddit initDB 1 2).2) 1 2 = (.ok (), (joinSubreddit initDB 1 2).2) ∧
    leaveSubreddit initDB 3 4 = (.ok (), initDB) :=
  ⟨(membership_idempotent.1 ((joinSubreddit initDB 1 2).2) 1 2).2.1 (by decide),
   (membership_idempotent.2.1 initDB 3 4).2 (by decide)⟩

/-- One mutation changes the karma read of a user id by exactly the
applied delta of that mutation; a reset clears it. -/
theorem karmaD_step (db : DB) (op : Op) (uid : Nat) :
    karmaD (step db op) uid =
      if op = Op.reset then 0 else karmaD db uid + appliedDelta db op uid := by
  cases op with
  | register u p =>
      rw [if_neg (fun h => Op.noConfusion h)]
      simp only [step, appliedDelta, add_zero]
      unfold registerUser
      split
      · rfl
      · unfold karmaD karmaOf
        dsimp only
        rw [findUser_append]
        cases hf : findUser db.users uid with
        | some x => rfl
        | none =>
            cases hb : (db.nextUserId == uid) with
            | true => simp [findUser, List.find?, hb]
            | false => simp [findUser, List.find?, hb]
  | createSub n d c =>
      rw [if_neg (fun h => Op.noConfusion h)]
      simp only [step, appliedDelta, add_zero]
      unfold createSubreddit
      split
      · rfl
      · split
        · rfl
        · rfl
  | join u s =>
      rw [if_neg (fun h => Op.noConfusion h)]
      simp only [step, appliedDelta, add_zero]
      unfold joinSubreddit
      split
      · rfl
      · rfl
  | leave u s =>
      rw [if_neg (fun h => Op.noConfusion h)]
      simp only [step, appliedDelta, add_zero]
      rfl
  | post t c a s =>
      rw [if_neg (fun h => Op.noConfusion h)]
      simp only [step, appliedDelta, add_zero]
      rfl
  | comment c a p pc =>
      rw [if_neg (fun h => Op.noConfusion h)]
      simp only [step, appliedDelta, add_zero]
      rfl
  | message f t c =>
      rw [if_neg (fun h => Op.noConfusion h)]
      simp only [step, appliedDelta, add_zero]
      rfl
  | subscribe a b =>
      rw [if_neg (fun h => Op.noConfusion h)]
      simp only [step, appliedDelta, add_zero]
      unfold subscribeToUser
      split
      · rfl
      · rfl
  | unsubscribe a b =>
      rw [if_neg (fun h => Op.noConfusion h)]
      simp only [step, appliedDelta, add_zero]
      rfl
  | reset =>
      rw [if_pos rfl]
      simp [step, resetDatabase, karmaD, karmaOf, findUser, List.find?]
  | castVote u t tt v =>
      rw [if_neg (fun h => Op.noConfusion h)]
      simp only [step, appliedDelta]
      by_cases hc : (tt = "post" ∨ tt = "comment") ∧ (v = 1 ∨ v = -1) ∧
          voteRowOf u t tt v ∉ db.votes
      · have hvote : vote db u t tt v =
            (.ok (),
              { db with
                  votes := db.votes ++ [voteRowOf u t tt v]
                  users := applyKarma db.users (targetAuthor db t tt) v }) := by
          unfold vote
          rw [if_pos hc]
        rw [hvote]
        dsimp only
        unfold karmaD karmaOf
        dsimp only
        rw [findUser_applyKarma]
        cases hf : findUser db.users uid with
        | none => simp [userExists, hf]
        | some u0 =>
            have hid : u0.id = uid := findUser_id hf
            by_cases ha : targetAuthor db t tt = some uid
            · have hbeq : (targetAuthor db t tt == some u0.id) = true := by
                simp [hid, ha]
              simp [hbeq, userExists, hf, ha, hid]
            · have hbeq : (targetAuthor db t tt == some u0.id) = false := by
                simp only [hid, beq_eq_false_iff_ne, ne_eq]
                exact ha
              simp [hbeq, userExists, hf, ha, hid]
      · have hvote : vote db u t tt v = (.error ("failed to record vote"), db) := by
          unfold vote
          rw [if_neg hc]
        rw [hvote]
        dsimp only
        rw [add_zero]

/-- Replaying a mutation sequence, the karma read of every user id equals
the spec-side accumulated applied deltas. -/
theorem appliedKarma_run (ops : List Op) :
    ∀ (db : DB) (acc : Nat → Int), (∀ uid, karmaD db uid = acc uid) →
      ∀ uid, karmaD (run db ops) uid = appliedKarma db acc ops uid := by
  induction ops with
  | nil =>
      intro db acc hacc uid
      exact hacc uid
  | cons op ops ih =>
      intro db acc hacc uid
      show karmaD (run (step db op) ops) uid = _
      rw [appliedKarma]
      apply ih
      intro u
      rw [karmaD_step]
      by_cases hop : op = Op.reset
      · rw [if_pos hop, if_pos hop]
      · rw [if_neg hop, if_neg hop, hacc u]

/-- Claim C1: a successful cast-vote appends exactly one vote ledger row
and, within the same atomic unit, adds exactly the vote value to the karma
of the author of the target; consequently, after any mutation sequence
from the initial store, the karma of every user equals the accumulated sum
of all vote values ever applied to the content authored by that user
(modulo reset). -/
theorem vote_karma_ledger_invariant :
    (∀ (db : DB) (uid tid : Nat) (ttype : String) (v : Int) (db' : DB) (a : Nat) (k : Int),
        vote db uid tid ttype v = (.ok (), db') →
        targetAuthor db tid ttype = some a →
        karmaOf db a = some k →
        db'.votes = db.votes ++ [voteRowOf uid tid ttype v] ∧
        karmaOf db' a = some (k + v)) ∧
    (∀ (ops : List Op) (uid : Nat) (k : Int),
        karmaOf (run initDB ops) uid = some k →
        k = appliedKarma initDB (fun _ => 0) ops uid) := by
  constructor
  · intro db uid tid ttype v db' a k hvote ha hk
    unfold vote at hvote
    split at hvote
    case isTrue hc =>
      rw [Prod.mk.injEq] at hvote
      obtain ⟨_, h2⟩ := hvote
      subst h2
      refine ⟨rfl, ?_⟩
      show (findUser (applyKarma db.users (targetAuthor db tid ttype) v) a).map
          (fun x => x.karma) = some (k + v)
      rw [ha]
      exact karmaOf_applyKarma_self db.users a v k hk
    case isFalse => simp at hvote
  · intro ops uid k h
    have h0 : ∀ u, karmaD initDB u = (fun _ => (0 : Int)) u := fun u => rfl
    have hrun := appliedKarma_run ops initDB (fun _ => 0) h0 uid
    rw [← hrun]
    unfold karmaD
    rw [h]
    rfl

/-- Witness for C1: a +1 vote by user 2 on the post of user 1 appends one
ledger row and lifts the karma of user 1 from 0 to 1; the trace invariant
evaluated on that five-mutation history yields the same value. -/
theorem vote_karma_ledger_invariant_witness :
    ((vote (run initDB [.register ("gail") ("pw"), .register ("hank") ("pw"),
        .createSub ("r2") ("d") 1, .post ("t") ("c") 1 1]) 2 1 ("post") 1).2.votes =
      (run initDB [.register ("gail") ("pw"), .register ("hank") ("pw"),
        .createSub ("r2") ("d") 1, .post ("t") ("c") 1 1]).votes ++
        [voteRowOf 2 1 ("post") 1] ∧
     karmaOf (vote (run initDB [.register ("gail") ("pw"), .register ("hank") ("pw"),
        .createSub ("r2") ("d") 1, .post ("t") ("c") 1 1]) 2 1 ("post") 1).2 1 =
       some (0 + 1)) ∧
    ((1 : Int) = appliedKarma initDB (fun _ => 0)
        [.register ("gail") ("pw"), .register ("hank") ("pw"),
         .createSub ("r2") ("d") 1, .post ("t") ("c") 1 1, .castVote 2 1 ("post") 1] 1) :=
  ⟨vote_karma_ledger_invariant.1
      (run initDB [.register ("gail") ("pw"), .register ("hank") ("pw"),
        .createSub ("r2") ("d") 1, .post ("t") ("c") 1 1]) 2 1 ("post") 1
      (vote (run initDB [.register ("gail") ("pw"), .register ("hank") ("pw"),
        .createSub ("r2") ("d") 1, .post ("t") ("c") 1 1]) 2 1 ("post") 1).2 1 0
      rfl rfl rfl,
   vote_karma_ledger_invariant.2
      [.register ("gail") ("pw"), .register ("hank") ("pw"),
       .createSub ("r2") ("d") 1, .post ("t") ("c") 1 1, .castVote 2 1 ("post") 1] 1 1 rfl⟩

end GoReddit
